import Mathlib

/-
  Verification of the Task Routing & Bounded Execution Engine
  (deploy/task_router.py and deploy/task_executor.py).

  The Python code is shallowly embedded: task dictionaries become a `Task`
  structure, the mutable queue and execution history become explicit state
  records, wall-clock readings (`datetime.now()`) become explicit natural
  number parameters, and Python exceptions become an explicit `Except`
  layer with the source's `try/except` blocks embedded as total handler
  functions.  Durations are modelled as natural numbers of abstract time
  units.  Wall-clock ISO timestamp fields that no claim mentions are not
  modelled.
-/

namespace RussoEngine

/-- The `metadata` dictionary attached to a task.  The executor only ever
reads `metadata.get("timeout")`, so only that key is modelled. -/
structure MetaData where
  timeout : Option Nat
  deriving DecidableEq

/-- A script-registry entry / unit descriptor, as consumed by
`TaskRouter.find_script_for_task`.  `enabled` is `Option Bool` because the
Python code reads it with `script_info.get("enabled", True)`: an absent
key defaults to `true`. -/
structure ScriptInfo where
  name : String
  path : String
  typ : String
  enabled : Option Bool
  deriving DecidableEq

/-- A task dictionary as built by `TaskRouter.add_task`.  The Python field
`"type"` is called `typ` (Lean keyword).  `created_at` is the clock reading
at creation.  `script_info` is attached by `route_and_dispatch`. -/
structure Task where
  id : String
  name : String
  typ : String
  priority : Int
  trigger_source : String
  metadata : Option MetaData
  created_at : Nat
  status : String
  script_info : Option ScriptInfo := none
  deriving DecidableEq

/-- The mutable state of a `TaskRouter`: its `task_queue` list. -/
structure RouterState where
  queue : List Task
  deriving DecidableEq

/-- The router's external collaborators: the loaded `script_registry`
mapping and the filesystem check `(brain_scripts_dir / f"{name}.py").exists()`
used by the fallback lookup. -/
structure RouterEnv where
  registry : String → Option ScriptInfo
  fsScript : String → Bool
  brainScriptsDir : String

/-- A fresh router: empty task queue. -/
def router0 : RouterState := ⟨[]⟩

/-- Embeds `TaskRouter.add_task`: builds the task dictionary and appends it to the
queue.  `now` is the clock reading `datetime.now().timestamp()` (the id) and
`datetime.now().isoformat()` (created_at), modelled as one natural number.
Returns the generated id together with the new state. -/
def add_task (task_name : String) (task_type : String) (priority : Int)
    (trigger : String) (meta : Option MetaData) (now : Nat)
    (st : RouterState) : String × RouterState :=
  let task : Task :=
    { id := task_name ++ "_" ++ toString now
      name := task_name
      typ := task_type
      priority := priority
      trigger_source := trigger
      metadata := meta
      created_at := now
      status := "queued" }
  (task.id, ⟨st.queue ++ [task]⟩)

/-- One step of the stable descending insertion used to model
`self.task_queue.sort(key=lambda x: x["priority"], reverse=True)`:
`t` passes over exactly the elements of strictly greater priority, so
elements of equal priority keep their original relative order, as Python's
stable sort guarantees. -/
def insertDesc (t : Task) : List Task → List Task
  | [] => [t]
  | h :: r => if t.priority < h.priority then h :: insertDesc t r else t :: h :: r

/-- Stable sort by priority, descending: the embedding of Python's
`list.sort(key=priority, reverse=True)` (Timsort is stable; `reverse=True`
reverses the comparison, not the ties). -/
def sortDesc (l : List Task) : List Task := l.foldr insertDesc []

/-- Marking a popped task, `next_task["status"] = "dispatched"`. -/
def markDispatched (t : Task) : Task := { t with status := "dispatched" }

/-- Embeds `TaskRouter.get_next_task`: if the queue is empty return `None`,
otherwise sort the queue in place (descending priority, stable) and pop
index 0, marking it dispatched. -/
def get_next_task (st : RouterState) : Option Task × RouterState :=
  match sortDesc st.queue with
  | [] => (none, st)
  | t :: rest => (some (markDispatched t), ⟨rest⟩)

/-- The direct-file fallback branch of `find_script_for_task`: the lookup
`brain_scripts_dir / f"{task_name}.py"`, returning a synthetic enabled
descriptor when the file exists, and `None` when it does not. -/
def fallbackLookup (env : RouterEnv) (task_name : String) : Option ScriptInfo :=
  if env.fsScript task_name then
    some { name := task_name
           path := env.brainScriptsDir ++ "/" ++ task_name ++ ".py"
           typ := "unknown"
           enabled := some true }
  else none

/-- Embeds `TaskRouter.find_script_for_task`: consult the registry first; an entry
with `enabled` defaulting to true is returned.  Otherwise (including when the
registry entry is present but disabled!) fall back to the direct file
lookup. -/
def find_script_for_task (env : RouterEnv) (task_name : String) : Option ScriptInfo :=
  match env.registry task_name with
  | some script_info =>
    if script_info.enabled.getD true then some script_info
    else fallbackLookup env task_name
  | none => fallbackLookup env task_name

/-- Attaching a resolved descriptor to a popped task, as
`route_and_dispatch` does (`task["script_info"] = script_info`) after
`get_next_task` already set the status; `none` when resolution fails. -/
def attachScript (env : RouterEnv) (t : Task) : Option Task :=
  (find_script_for_task env t.name).map
    (fun si => { t with status := "dispatched", script_info := some si })

/-- The loop body of `TaskRouter.route_and_dispatch`, with the iteration
count of `range(min(max_tasks, len(self.task_queue)))` made an explicit
fuel argument.  Each iteration pops one task; resolution failures are
logged and discarded, consuming the iteration. -/
def dispatchLoop (env : RouterEnv) (st : RouterState) : Nat → List Task × RouterState
  | 0 => ([], st)
  | k + 1 =>
    match get_next_task st with
    | (none, st') => dispatchLoop env st' k
    | (some task, st') =>
      match find_script_for_task env task.name with
      | some si =>
        let rec_result := dispatchLoop env st' k
        ({ task with script_info := some si } :: rec_result.1, rec_result.2)
      | none => dispatchLoop env st' k

/-- Embeds `TaskRouter.route_and_dispatch(max_tasks)`: runs the loop exactly
`min(max_tasks, len(task_queue))` times (the bound is computed once, before
any pop), returning the successfully resolved tasks in pop order together
with the final queue state. -/
def route_and_dispatch (env : RouterEnv) (max_tasks : Nat) (st : RouterState) :
    List Task × RouterState :=
  dispatchLoop env st (min max_tasks st.queue.length)

/-- Repeatedly call `get_next_task` until the queue is empty, collecting the
popped tasks; fuel-indexed so the recursion is structural. -/
def popAllAux (env_fuel : Nat) (st : RouterState) : List Task :=
  match env_fuel with
  | 0 => []
  | k + 1 =>
    match get_next_task st with
    | (none, _) => []
    | (some t, st') => t :: popAllAux k st'

/-- The full pop sequence of a router state. -/
def popAll (st : RouterState) : List Task := popAllAux st.queue.length st

/-- Parameters of one `add_task` call. -/
structure EnqueueReq where
  name : String
  typ : String
  priority : Int
  trigger : String
  meta : Option MetaData
  now : Nat

/-- A sequence of `add_task` calls folded over a router state. -/
def enqueueAll (reqs : List EnqueueReq) (st : RouterState) : RouterState :=
  reqs.foldl (fun s r => (add_task r.name r.typ r.priority r.trigger r.meta r.now s).2) st

/-! ## Executor model (deploy/task_executor.py) -/

/-- A Python exception value, as raised while loading or running a unit.
`timeoutErr` is the built-in `TimeoutError` (caught by the dedicated
handler), `typeErr` is `TypeError` (caught by the in-line retry), and
`otherErr` is any other exception, carrying its class name. -/
inductive PyExn where
  | timeoutErr (msg : String)
  | typeErr (msg : String)
  | otherErr (exnName msg : String)
  deriving DecidableEq

/-- The generic `f"{type(e).__name__}: {str(e)}"` classification used by the
`except Exception` handler of `execute_python_module`. -/
def renderExn : PyExn → String
  | .timeoutErr msg => "TimeoutError: " ++ msg
  | .typeErr msg => "TypeError: " ++ msg
  | .otherErr exnName msg => exnName ++ ": " ++ msg

/-- Decidable equality for `Except`, needed to decide concrete facts about
modelled module behaviours. -/
instance exceptDecEq {ε α : Type} [DecidableEq ε] [DecidableEq α] :
    DecidableEq (Except ε α) := fun a b =>
  match a, b with
  | .ok x, .ok y =>
    if h : x = y then .isTrue (by rw [h]) else .isFalse (by intro hc; cases hc; exact h rfl)
  | .error x, .error y =>
    if h : x = y then .isTrue (by rw [h]) else .isFalse (by intro hc; cases hc; exact h rfl)
  | .ok _, .error _ => .isFalse (by intro hc; cases hc)
  | .error _, .ok _ => .isFalse (by intro hc; cases hc)

/-- The behaviour of a module-level `main` function: whether its signature
accepts the task-context argument (`main(task_info)` raises `TypeError`
immediately when it does not, and `main()` raises `TypeError` immediately
when it does), how long its body runs, and what the body then does
(returns `None`, returns a value rendered by `str`, or raises). -/
structure MainFn where
  acceptsArg : Bool
  duration : Nat
  run : Except PyExn (Option String)
  deriving DecidableEq

/-- The behaviour of a Python file when imported by
`importlib.util.spec_from_file_location` + `exec_module`: whether a spec
can be built at all, how long top-level execution blocks, whether it
raises, and the `main` attribute it leaves behind (if any). -/
structure PyModule where
  specOk : Bool
  loadDuration : Nat
  loadResult : Except PyExn Unit
  main : Option MainFn
  deriving DecidableEq

/-- The behaviour of `subprocess.run(command, shell=True, ...)` on a given
command: how long the process would run, its exit code and captured
streams, or an exception raised by `subprocess.run` itself. -/
structure SubprocBehavior where
  runtime : Nat
  returncode : Int
  stdout : String
  stderr : String
  spawnError : Option String
  deriving DecidableEq

/-- The executor's external world: module behaviour per script path,
subprocess behaviour per command, and `os.path.exists`. -/
structure ExecEnv where
  modules : String → PyModule
  subproc : String → SubprocBehavior
  fileExists : String → Bool

/-- Embeds `ExecutionResult` (success flag, captured output, error text, elapsed
duration, task id).  The wall-clock `timestamp` field, which no claim
mentions, is not modelled. -/
structure ExecutionResult where
  success : Bool
  output : String
  error : String
  duration : Nat
  task_id : Option String
  deriving DecidableEq

/-- One entry of `execution_history`: the task paired with its result
(the redundant wall-clock timestamp of the entry is not modelled). -/
structure HistEntry where
  task : Task
  result : ExecutionResult
  deriving DecidableEq

/-- The mutable state of a `TaskExecutor`: its bounded `execution_history`. -/
structure ExecState where
  execution_history : List HistEntry
  deriving DecidableEq

/-- Embeds `self.default_timeout = 300`. -/
def default_timeout : Nat := 300

/-- Embeds `self.max_timeout = 1800`. -/
def max_timeout : Nat := 1800

/-- Python's `timeout or self.default_timeout`: `None` and the falsy `0`
both fall back to the default. -/
def resolveTimeout : Option Nat → Nat
  | none => default_timeout
  | some 0 => default_timeout
  | some (k + 1) => k + 1

/-- Whether the background watcher of `execution_timeout` has set the
timeout event by the time a check runs at elapsed time `e`: the watcher
sleeps exactly `timeout` units before setting the flag, so a strictly later
check observes it.  (A check at exactly `timeout` is a scheduler race; it is
modelled as not yet fired, which no claim depends on.) -/
def timeoutFired (elapsed timeout : Nat) : Bool := timeout < elapsed

/-- Embeds `str(result) if result is not None else "Module executed successfully"`. -/
def renderMainResult : Option String → String
  | some s => s
  | none => "Module executed successfully"

/-- Calling `module.main(task_info)` at elapsed time `e`: a signature
mismatch raises `TypeError` immediately; otherwise the body runs for its
duration and returns or raises.  The result carries the new elapsed time. -/
def callMainWithArg (mf : MainFn) (e : Nat) : Except (PyExn × Nat) (Option String × Nat) :=
  if mf.acceptsArg then
    match mf.run with
    | .ok v => .ok (v, e + mf.duration)
    | .error ex => .error (ex, e + mf.duration)
  else
    .error (.typeErr "main() takes 0 positional arguments but 1 was given", e)

/-- Calling `module.main()` at elapsed time `e`. -/
def callMainNoArg (mf : MainFn) (e : Nat) : Except (PyExn × Nat) (Option String × Nat) :=
  if mf.acceptsArg then
    .error (.typeErr "main() missing 1 required positional argument", e)
  else
    match mf.run with
    | .ok v => .ok (v, e + mf.duration)
    | .error ex => .error (ex, e + mf.duration)

/-- The `try: main(task_info) / except TypeError: main()` retry of
`execute_python_module`: only a `TypeError` from the first call triggers the
no-argument fallback. -/
def callMainWithRetry (mf : MainFn) (e : Nat) : Except (PyExn × Nat) (Option String × Nat) :=
  match callMainWithArg mf e with
  | .error (.typeErr _, e') => callMainNoArg mf e'
  | r => r

/-- The `main` call of `execute_python_module`: with a task context the
argument-passing call (with its `TypeError` retry) is used, without one
`main()` is called directly. -/
def mainCall (mf : MainFn) (task_info : Option Task) (e : Nat) :
    Except (PyExn × Nat) (Option String × Nat) :=
  match task_info with
  | some _ => callMainWithRetry mf e
  | none => callMainNoArg mf e

/-- The body of the outer `try` of `TaskExecutor.execute_python_module`,
raising into `Except` exactly where the Python body raises; a raised
exception carries the elapsed time at which it is raised (the handlers read
`time.time() - start_time`).  Checks of the timeout event happen on entering
the `with` block and after `exec_module`; there is no check around the
`main` call. -/
def epmBody (m : PyModule) (task_info : Option Task) (timeout : Nat)
    (script_path : String) : Except (PyExn × Nat) ExecutionResult :=
  if !m.specOk then
    .error (.otherErr "ImportError" ("Could not load spec for " ++ script_path), 0)
  else if timeoutFired 0 timeout then
    .error (.timeoutErr ("Module loading timed out after " ++ toString timeout ++ " seconds"), 0)
  else
    match m.loadResult with
    | .error ex => .error (ex, m.loadDuration)
    | .ok _ =>
      if timeoutFired m.loadDuration timeout then
        .error (.timeoutErr ("Module execution timed out after " ++ toString timeout
                             ++ " seconds"), m.loadDuration)
      else
        match m.main with
        | none =>
          .ok { success := true
                output := "Module loaded successfully (no main function found)"
                error := ""
                duration := m.loadDuration
                task_id := task_info.map (·.id) }
        | some mf =>
          match mainCall mf task_info m.loadDuration with
          | .error ed => .error ed
          | .ok (v, e') =>
            .ok { success := true
                  output := renderMainResult v
                  error := ""
                  duration := e'
                  task_id := task_info.map (·.id) }

/-- The failed `ExecutionResult` built by the two `except` handlers of
`execute_python_module`: `except TimeoutError` stores `str(e)` bare, the
generic `except Exception` stores the classified message. -/
def pyFailResult (ex : PyExn) (d : Nat) (tid : Option String) : ExecutionResult :=
  match ex with
  | .timeoutErr msg => { success := false, output := "", error := msg, duration := d, task_id := tid }
  | ex => { success := false, output := "", error := renderExn ex, duration := d, task_id := tid }

/-- Embeds `TaskExecutor.execute_python_module`: resolve the timeout default, run
the body, and catch every raised exception into a failed result. -/
def execute_python_module (env : ExecEnv) (script_path : String)
    (task_info : Option Task) (timeout : Option Nat) : ExecutionResult :=
  match epmBody (env.modules script_path) task_info (resolveTimeout timeout) script_path with
  | .ok r => r
  | .error (ex, d) => pyFailResult ex d (task_info.map (·.id))

/-- Embeds `TaskExecutor.execute_subprocess`: run the command with the resolved
timeout; a spawn exception or a run past the deadline (`TimeoutExpired`,
the child is killed at the deadline) or a nonzero exit each yield a failed
result. -/
def execute_subprocess (env : ExecEnv) (command : String)
    (task_info : Option Task) (timeout : Option Nat) : ExecutionResult :=
  match (env.subproc command).spawnError with
  | some msg =>
    { success := false, output := "", error := "Subprocess execution failed: " ++ msg
      duration := 0, task_id := task_info.map (·.id) }
  | none =>
    if resolveTimeout timeout < (env.subproc command).runtime then
      { success := false, output := ""
        error := "Subprocess timed out after " ++ toString (resolveTimeout timeout) ++ " seconds"
        duration := resolveTimeout timeout, task_id := task_info.map (·.id) }
    else if (env.subproc command).returncode = 0 then
      { success := true, output := (env.subproc command).stdout, error := ""
        duration := (env.subproc command).runtime, task_id := task_info.map (·.id) }
    else
      { success := false, output := (env.subproc command).stdout
        error := (env.subproc command).stderr
        duration := (env.subproc command).runtime, task_id := task_info.map (·.id) }

/-- The effective timeout of `execute_task`:
`min(custom_timeout or self.default_timeout, self.max_timeout)`. -/
def effectiveTimeout (custom : Option Nat) : Nat :=
  min (resolveTimeout custom) max_timeout

/-- The `script_path.endswith(".py")` test of `execute_task`, embedded over
the path's character list (the last three characters are `.py`). -/
def endsWithPy (s : String) : Bool :=
  s.data.reverse.take 3 == ['y', 'p', '.']

/-- The execution-mode choice of `execute_task`: run as a Python module when
the resolved path ends in `.py`, otherwise as a subprocess command, in both
cases with the effective timeout from the task metadata. -/
def runScript (env : ExecEnv) (task : Task) (si : ScriptInfo) : ExecutionResult :=
  if endsWithPy si.path then
    execute_python_module env si.path (some task)
      (some (effectiveTimeout (task.metadata.bind (·.timeout))))
  else
    execute_subprocess env si.path (some task)
      (some (effectiveTimeout (task.metadata.bind (·.timeout))))

/-- The history update at the end of `execute_task`: append the entry, then
`self.execution_history = self.execution_history[-100:]` when the length
exceeds 100. -/
def appendHistory (st : ExecState) (task : Task) (result : ExecutionResult) : ExecState :=
  ⟨if 100 < (st.execution_history ++ [HistEntry.mk task result]).length then
     (st.execution_history ++ [HistEntry.mk task result]).drop
       ((st.execution_history ++ [HistEntry.mk task result]).length - 100)
   else st.execution_history ++ [HistEntry.mk task result]⟩

/-- Embeds `TaskExecutor.execute_task`: validate the task and its script path,
pick the execution mode by the `.py` suffix, run it, and append the outcome
to the history, trimming to the last 100 entries.  The three validation
failures return before the history append, and the per-run log-file write
(`log_execution_result`) has no effect on the modelled state. -/
def execute_task (env : ExecEnv) : Option Task → ExecState → ExecutionResult × ExecState
  | none, st =>
    ({ success := false, output := "", error := "No task information provided"
       duration := 0, task_id := none }, st)
  | some task, st =>
    match task.script_info with
    | none =>
      ({ success := false, output := "", error := "No script path provided"
         duration := 0, task_id := some task.id }, st)
    | some si =>
      if !env.fileExists si.path then
        ({ success := false, output := "", error := "Script file not found: " ++ si.path
           duration := 0, task_id := some task.id }, st)
      else
        (runScript env task si, appendHistory st task (runScript env task si))

/-- Embeds `TaskExecutor.execute_batch`: run the tasks strictly in order, threading
the history state, accumulating one result per task.  The `time.sleep(1)`
pause between runs has no effect on the modelled state. -/
def execute_batch (env : ExecEnv) (tasks : List Task) (st : ExecState) :
    List ExecutionResult × ExecState :=
  match tasks with
  | [] => ([], st)
  | task :: rest =>
    let r := execute_task env (some task) st
    let rs := execute_batch env rest r.2
    (r.1 :: rs.1, rs.2)

/-- The dictionary returned by `get_execution_stats`: on an empty history
only `total_executions` is present. -/
structure ExecStats where
  total_executions : Nat
  successful : Option Nat
  failed : Option Nat
  success_rate : Option Rat
  average_duration : Option Rat
  deriving DecidableEq

/-- Embeds `TaskExecutor.get_execution_stats`, computed from the in-memory
history only. -/
def get_execution_stats (st : ExecState) : ExecStats :=
  match st.execution_history with
  | [] => ⟨0, none, none, none, none⟩
  | _ =>
    let total := st.execution_history.length
    let successful := (st.execution_history.filter (fun e => e.result.success)).length
    let failed := total - successful
    let durations := st.execution_history.map (fun e => (e.result.duration : Rat))
    let avg := durations.sum / (durations.length : Rat)
    ⟨total, some successful, some failed, some ((successful : Rat) / (total : Rat) * 100), some avg⟩

/-! ## Properties of the queue ordering -/

theorem insertDesc_length (t : Task) (l : List Task) :
    (insertDesc t l).length = l.length + 1 := by
  induction l with
  | nil => rfl
  | cons h r ih =>
    unfold insertDesc
    by_cases hc : t.priority < h.priority
    · rw [if_pos hc]
      simp [ih]
    · rw [if_neg hc]
      simp

theorem sortDesc_cons (t : Task) (l : List Task) :
    sortDesc (t :: l) = insertDesc t (sortDesc l) := rfl

theorem sortDesc_length (l : List Task) : (sortDesc l).length = l.length := by
  induction l with
  | nil => rfl
  | cons h r ih =>
    rw [sortDesc_cons, insertDesc_length, ih]
    rfl

theorem insertDesc_mem (x t : Task) (l : List Task) :
    x ∈ insertDesc t l ↔ x = t ∨ x ∈ l := by
  induction l with
  | nil => simp [insertDesc]
  | cons h r ih =>
    unfold insertDesc
    by_cases hc : t.priority < h.priority
    · rw [if_pos hc]
      simp only [List.mem_cons, ih]
      tauto
    · rw [if_neg hc]
      simp only [List.mem_cons]

theorem insertDesc_pairwise (t : Task) (l : List Task)
    (hl : l.Pairwise (fun a b => b.priority ≤ a.priority)) :
    (insertDesc t l).Pairwise (fun a b => b.priority ≤ a.priority) := by
  induction l with
  | nil => simp [insertDesc]
  | cons h r ih =>
    rw [List.pairwise_cons] at hl
    unfold insertDesc
    by_cases hc : t.priority < h.priority
    · rw [if_pos hc, List.pairwise_cons]
      refine ⟨?_, ih hl.2⟩
      intro x hx
      rcases (insertDesc_mem x t r).1 hx with rfl | hmem
      · exact le_of_lt hc
      · exact hl.1 x hmem
    · rw [if_neg hc, List.pairwise_cons]
      push_neg at hc
      refine ⟨?_, ?_⟩
      · intro x hx
        rcases List.mem_cons.1 hx with rfl | hmem
        · exact hc
        · exact le_trans (hl.1 x hmem) hc
      · rw [List.pairwise_cons]
        exact hl

theorem sortDesc_pairwise (l : List Task) :
    (sortDesc l).Pairwise (fun a b => b.priority ≤ a.priority) := by
  induction l with
  | nil => simp [sortDesc]
  | cons h r ih =>
    rw [sortDesc_cons]
    exact insertDesc_pairwise h _ ih

theorem insertDesc_cons_of_ge (t h : Task) (r : List Task)
    (hge : h.priority ≤ t.priority) : insertDesc t (h :: r) = t :: h :: r := by
  unfold insertDesc
  rw [if_neg (not_lt.2 hge)]

theorem sortDesc_eq_of_pairwise (l : List Task)
    (hl : l.Pairwise (fun a b => b.priority ≤ a.priority)) : sortDesc l = l := by
  induction l with
  | nil => rfl
  | cons h r ih =>
    rw [List.pairwise_cons] at hl
    rw [sortDesc_cons, ih hl.2]
    cases r with
    | nil => rfl
    | cons h2 r2 =>
      exact insertDesc_cons_of_ge h h2 r2 (hl.1 h2 (List.mem_cons_self h2 r2))

theorem insertDesc_filter (t : Task) (l : List Task) (p : Int) :
    (insertDesc t l).filter (fun x => x.priority == p)
      = (t :: l).filter (fun x => x.priority == p) := by
  induction l with
  | nil => rfl
  | cons h r ih =>
    unfold insertDesc
    by_cases hc : t.priority < h.priority
    · rw [if_pos hc]
      by_cases hh : h.priority = p <;> by_cases ht : t.priority = p
      · exfalso
        rw [hh, ht] at hc
        exact lt_irrefl p hc
      all_goals simp [List.filter_cons, hh, ht, ih]
    · rw [if_neg hc]

theorem sortDesc_filter (l : List Task) (p : Int) :
    (sortDesc l).filter (fun x => x.priority == p)
      = l.filter (fun x => x.priority == p) := by
  induction l with
  | nil => rfl
  | cons h r ih =>
    rw [sortDesc_cons, insertDesc_filter]
    simp only [List.filter_cons, ih]

theorem popAllAux_spec : ∀ (k : Nat) (q : List Task), q.length ≤ k →
    popAllAux k ⟨q⟩ = (sortDesc q).map markDispatched := by
  intro k
  induction k with
  | zero =>
    intro q hq
    have hq0 : q = [] := List.length_eq_zero.1 (Nat.le_zero.1 hq)
    subst hq0
    rfl
  | succ k ih =>
    intro q hq
    cases hs : sortDesc q with
    | nil =>
      unfold popAllAux get_next_task
      simp only [hs]
      rfl
    | cons t rest =>
      have hg : get_next_task ⟨q⟩ = (some (markDispatched t), ⟨rest⟩) := by
        unfold get_next_task
        simp only [hs]
      have hp := sortDesc_pairwise q
      rw [hs, List.pairwise_cons] at hp
      have hlen : rest.length ≤ k := by
        have hl := sortDesc_length q
        rw [hs] at hl
        simp only [List.length_cons] at hl
        omega
      unfold popAllAux
      simp only [hg]
      rw [ih rest hlen, sortDesc_eq_of_pairwise rest hp.2]
      rfl

theorem popAll_spec (q : List Task) :
    popAll ⟨q⟩ = (sortDesc q).map markDispatched :=
  popAllAux_spec q.length q (le_refl _)

/-- The C1 scenario states: enqueue `("A", 1)`, `("B", 3)`, `("C", 3)`. -/
def routerA : RouterState := (add_task "A" "utility" 1 "manual" none 0 router0).2

def routerAB : RouterState := (add_task "B" "utility" 3 "manual" none 1 routerA).2

def routerABC : RouterState := (add_task "C" "utility" 3 "manual" none 2 routerAB).2

/-- Claim C1: after any sequence of `add_task` calls, the sequence of
`get_next_task` results is exactly the stable descending sort of the queue:
each pop returns a task of maximal priority among the queued tasks, and
among equal priorities the earliest-enqueued task comes first (the filter
equation says equal-priority tasks keep their insertion order).  In the
concrete scenario A(1), B(3), C(3) the pops return B, C, A, and popping an
empty queue returns nothing. -/
theorem c1_popNext_max_priority_stable (reqs : List EnqueueReq) :
    popAll (enqueueAll reqs router0)
        = (sortDesc (enqueueAll reqs router0).queue).map markDispatched
    ∧ (sortDesc (enqueueAll reqs router0).queue).Pairwise
        (fun a b => b.priority ≤ a.priority)
    ∧ (∀ p : Int,
        (sortDesc (enqueueAll reqs router0).queue).filter (fun x => x.priority == p)
          = (enqueueAll reqs router0).queue.filter (fun x => x.priority == p))
    ∧ (popAll routerABC).map (·.name) = ["B", "C", "A"]
    ∧ (get_next_task router0).1 = none := by
  refine ⟨popAll_spec _, sortDesc_pairwise _, fun p => sortDesc_filter _ p, by decide, rfl⟩

/-! ## The dispatch loop -/

theorem dispatchLoop_sorted (env : RouterEnv) : ∀ (k : Nat) (q : List Task),
    q.Pairwise (fun a b => b.priority ≤ a.priority) → k ≤ q.length →
    dispatchLoop env ⟨q⟩ k
      = ((q.take k).filterMap (attachScript env), ⟨q.drop k⟩) := by
  intro k
  induction k with
  | zero =>
    intro q _ _
    simp [dispatchLoop]
  | succ k ih =>
    intro q hs hk
    cases q with
    | nil => simp at hk
    | cons t rest =>
      have hg : get_next_task ⟨t :: rest⟩ = (some (markDispatched t), ⟨rest⟩) := by
        unfold get_next_task
        rw [sortDesc_eq_of_pairwise _ hs]
      rw [List.pairwise_cons] at hs
      have hrest := ih rest hs.2 (by simpa using hk)
      unfold dispatchLoop
      cases hf : find_script_for_task env (markDispatched t).name with
      | none =>
        have hfn : find_script_for_task env t.name = none := hf
        simp only [hg, hf, hrest, List.take_succ_cons, List.filterMap_cons, attachScript, hfn,
          Option.map_none', List.drop_succ_cons]
      | some si =>
        have hfn : find_script_for_task env t.name = some si := hf
        simp only [hg, hf, hrest, List.take_succ_cons, List.filterMap_cons, attachScript, hfn,
          Option.map_some', List.drop_succ_cons]
        rfl

theorem dispatchLoop_full (env : RouterEnv) (k : Nat) (q : List Task)
    (hk : k ≤ q.length) :
    dispatchLoop env ⟨q⟩ k
      = (((sortDesc q).take k).filterMap (attachScript env),
         ⟨if k = 0 then q else (sortDesc q).drop k⟩) := by
  cases k with
  | zero => simp [dispatchLoop]
  | succ m =>
    cases hs : sortDesc q with
    | nil =>
      have hl := sortDesc_length q
      rw [hs] at hl
      simp only [List.length_nil] at hl
      omega
    | cons t rest =>
      have hp := sortDesc_pairwise q
      rw [hs, List.pairwise_cons] at hp
      have hg : get_next_task ⟨q⟩ = (some (markDispatched t), ⟨rest⟩) := by
        unfold get_next_task
        simp only [hs]
      have hlen : m ≤ rest.length := by
        have hl := sortDesc_length q
        rw [hs] at hl
        simp only [List.length_cons] at hl
        omega
      have hrest := dispatchLoop_sorted env m rest hp.2 hlen
      unfold dispatchLoop
      cases hf : find_script_for_task env (markDispatched t).name with
      | none =>
        have hfn : find_script_for_task env t.name = none := hf
        simp only [hg, hf, hrest, hs, List.take_succ_cons, List.filterMap_cons, attachScript, hfn,
          Option.map_none', List.drop_succ_cons, Nat.succ_ne_zero, if_false]
      | some si =>
        have hfn : find_script_for_task env t.name = some si := hf
        simp only [hg, hf, hrest, hs, List.take_succ_cons, List.filterMap_cons, attachScript, hfn,
          Option.map_some', List.drop_succ_cons, Nat.succ_ne_zero, if_false]
        rfl

/-- Claim C4 (amended): `route_and_dispatch(maxCount)` pops exactly
`min(maxCount, initial queue length)` tasks — the iteration budget is fixed
before the loop, and a popped task whose resolution fails is discarded (not
re-queued, not retried) while still consuming one iteration of that budget;
the returned dispatches are the resolvable pops in priority order. -/
theorem c4_dispatch_budget (env : RouterEnv) (n : Nat) (st : RouterState) :
    (route_and_dispatch env n st).1
        = ((sortDesc st.queue).take (min n st.queue.length)).filterMap (attachScript env)
    ∧ (route_and_dispatch env n st).2.queue
        = (if min n st.queue.length = 0 then st.queue
           else (sortDesc st.queue).drop (min n st.queue.length)) := by
  obtain ⟨q⟩ := st
  have h := dispatchLoop_full env (min n q.length) q (min_le_right _ _)
  unfold route_and_dispatch
  rw [h]
  exact ⟨rfl, rfl⟩

def taskBad : Task :=
  { id := "bad_0", name := "bad", typ := "utility", priority := 3
    trigger_source := "manual", metadata := none, created_at := 0, status := "queued" }

def taskGood : Task :=
  { id := "good_1", name := "good", typ := "utility", priority := 1
    trigger_source := "manual", metadata := none, created_at := 1, status := "queued" }

def env4 : RouterEnv :=
  { registry := fun _ => none, fsScript := fun n => n == "good"
    brainScriptsDir := "brain_scripts" }

/-- Claim C4 counterexample: with a queue holding an unresolvable
high-priority task and a resolvable low-priority one, `route_and_dispatch(1)`
returns zero dispatches and leaves the queue nonempty, although one more
successful dispatch was available — so it does not run until `maxCount`
successful dispatches or an empty queue: the failed resolution consumed the
single iteration. -/
theorem c4_cex :
    (route_and_dispatch env4 1 ⟨[taskBad, taskGood]⟩).1 = []
    ∧ (route_and_dispatch env4 1 ⟨[taskBad, taskGood]⟩).2.queue.length = 1
    ∧ find_script_for_task env4 "good" ≠ none := by decide

def c9_first : String × RouterState := add_task "A" "utility" 2 "manual" none 5 router0

def c9_second : String × RouterState := add_task "A" "utility" 2 "manual" none 5 c9_first.2

/-- Claim C9 (code bug): two `add_task("A")` calls whose clock readings
`datetime.now().timestamp()` coincide (rapid succession within one clock
tick) generate the same id `"A_5"`, so ids are not unique under
high-frequency creation. -/
theorem c9_id_collision :
    c9_first.1 = c9_second.1
    ∧ c9_second.2.queue.length = 2
    ∧ c9_second.2.queue.map (·.id) = ["A_5", "A_5"] := by decide

/-! ## Executor lemmas -/

theorem execute_task_some_none (env : ExecEnv) (task : Task) (st : ExecState)
    (hsi : task.script_info = none) :
    execute_task env (some task) st
      = ({ success := false, output := "", error := "No script path provided"
           duration := 0, task_id := some task.id }, st) := by
  simp only [execute_task, hsi]

theorem execute_task_missing (env : ExecEnv) (task : Task) (st : ExecState)
    (si : ScriptInfo) (hsi : task.script_info = some si)
    (hex : env.fileExists si.path = false) :
    execute_task env (some task) st
      = ({ success := false, output := "", error := "Script file not found: " ++ si.path
           duration := 0, task_id := some task.id }, st) := by
  simp only [execute_task, hsi, hex]
  rfl

theorem execute_task_run (env : ExecEnv) (task : Task) (st : ExecState)
    (si : ScriptInfo) (hsi : task.script_info = some si)
    (hex : env.fileExists si.path = true) :
    execute_task env (some task) st
      = (runScript env task si, appendHistory st task (runScript env task si)) := by
  simp only [execute_task, hsi, hex]
  rfl

theorem resolveTimeout_pos (t : Nat) (ht : t ≠ 0) : resolveTimeout (some t) = t := by
  cases t with
  | zero => exact absurd rfl ht
  | succ k => rfl

theorem pyFailResult_success (ex : PyExn) (d : Nat) (tid : Option String) :
    (pyFailResult ex d tid).success = false := by
  cases ex <;> rfl

theorem pyFailResult_id (ex : PyExn) (d : Nat) (tid : Option String) :
    (pyFailResult ex d tid).task_id = tid := by
  cases ex <;> rfl

theorem epmBody_ok_id (m : PyModule) (ti : Option Task) (t : Nat) (p : String)
    (r : ExecutionResult) (h : epmBody m ti t p = .ok r) :
    r.task_id = ti.map (·.id) := by
  unfold epmBody at h
  repeat' split at h
  all_goals first
    | exact Except.noConfusion h
    | (cases h; rfl)

theorem execute_python_module_id (env : ExecEnv) (p : String) (ti : Option Task)
    (tmo : Option Nat) :
    (execute_python_module env p ti tmo).task_id = ti.map (·.id) := by
  unfold execute_python_module
  cases h : epmBody (env.modules p) ti (resolveTimeout tmo) p with
  | ok r => exact epmBody_ok_id _ _ _ _ r h
  | error ed =>
    obtain ⟨ex, d⟩ := ed
    exact pyFailResult_id ex d _

theorem execute_subprocess_id (env : ExecEnv) (c : String) (ti : Option Task)
    (tmo : Option Nat) :
    (execute_subprocess env c ti tmo).task_id = ti.map (·.id) := by
  unfold execute_subprocess
  split
  · rfl
  · split
    · rfl
    · split <;> rfl

theorem runScript_id (env : ExecEnv) (task : Task) (si : ScriptInfo) :
    (runScript env task si).task_id = some task.id := by
  unfold runScript
  split
  · exact execute_python_module_id env si.path (some task) _
  · exact execute_subprocess_id env si.path (some task) _

theorem execute_task_id (env : ExecEnv) (task : Task) (st : ExecState) :
    ((execute_task env (some task) st).1).task_id = some task.id := by
  cases hsi : task.script_info with
  | none => rw [execute_task_some_none env task st hsi]
  | some si =>
    cases hex : env.fileExists si.path with
    | false => rw [execute_task_missing env task st si hsi hex]
    | true =>
      rw [execute_task_run env task st si hsi hex]
      exact runScript_id env task si

theorem execute_batch_length (env : ExecEnv) : ∀ (tasks : List Task) (st : ExecState),
    (execute_batch env tasks st).1.length = tasks.length := by
  intro tasks
  induction tasks with
  | nil => intro st; rfl
  | cons task rest ih =>
    intro st
    unfold execute_batch
    simp [ih]

theorem execute_batch_ids (env : ExecEnv) : ∀ (tasks : List Task) (st : ExecState),
    (execute_batch env tasks st).1.map (·.task_id)
      = tasks.map (fun tk => some tk.id) := by
  intro tasks
  induction tasks with
  | nil => intro st; rfl
  | cons task rest ih =>
    intro st
    unfold execute_batch
    simp [ih, execute_task_id]

theorem appendHistory_mem (st : ExecState) (task : Task) (r : ExecutionResult)
    (e : HistEntry) (he : e ∈ (appendHistory st task r).execution_history) :
    e ∈ st.execution_history ∨ e = HistEntry.mk task r := by
  unfold appendHistory at he
  have he' : e ∈ st.execution_history ++ [HistEntry.mk task r] := by
    split at he
    · exact List.drop_subset _ _ he
    · exact he
  rcases List.mem_append.1 he' with h | h
  · exact Or.inl h
  · exact Or.inr (List.mem_singleton.1 h)

theorem execute_task_hist_mem (env : ExecEnv) (task : Task) (st : ExecState)
    (e : HistEntry)
    (he : e ∈ ((execute_task env (some task) st).2).execution_history) :
    e ∈ st.execution_history ∨ e.task = task := by
  cases hsi : task.script_info with
  | none =>
    rw [execute_task_some_none env task st hsi] at he
    exact Or.inl he
  | some si =>
    cases hex : env.fileExists si.path with
    | false =>
      rw [execute_task_missing env task st si hsi hex] at he
      exact Or.inl he
    | true =>
      rw [execute_task_run env task st si hsi hex] at he
      rcases appendHistory_mem st task _ e he with h | h
      · exact Or.inl h
      · rw [h]
        exact Or.inr rfl

theorem execute_batch_hist_mem (env : ExecEnv) : ∀ (tasks : List Task) (st : ExecState)
    (e : HistEntry), e ∈ ((execute_batch env tasks st).2).execution_history →
    e ∈ st.execution_history ∨ ∃ tk ∈ tasks, e.task = tk := by
  intro tasks
  induction tasks with
  | nil =>
    intro st e he
    exact Or.inl he
  | cons task rest ih =>
    intro st e he
    simp only [execute_batch] at he
    rcases ih _ e he with h1 | ⟨tk, htk, het⟩
    · rcases execute_task_hist_mem env task st e h1 with h2 | h2
      · exact Or.inl h2
      · exact Or.inr ⟨task, List.mem_cons_self _ _, h2⟩
    · exact Or.inr ⟨tk, List.mem_cons_of_mem _ htk, het⟩

theorem appendHistory_spec (st : ExecState) (task : Task) (r : ExecutionResult)
    (hcap : st.execution_history.length ≤ 100) :
    (appendHistory st task r).execution_history.length ≤ 100
    ∧ (st.execution_history.length = 100 →
        (appendHistory st task r).execution_history
          = st.execution_history.tail ++ [HistEntry.mk task r]) := by
  unfold appendHistory
  have hlen : (st.execution_history ++ [HistEntry.mk task r]).length
      = st.execution_history.length + 1 := by simp
  constructor
  · split
    · rw [List.length_drop, hlen]
      omega
    · rename_i hc
      rw [hlen] at hc
      rw [hlen]
      omega
  · intro h100
    have hc : 100 < (st.execution_history ++ [HistEntry.mk task r]).length := by
      rw [hlen, h100]
      omega
    rw [if_pos hc, hlen, h100]
    have hone : 101 - 100 = 1 := rfl
    rw [hone, List.drop_append_of_le_length (by omega), List.drop_one]

/-! ## Concrete environments and states used by witnesses and counterexamples -/

/-- An executor environment whose modules load instantly with no `main` and
whose filesystem has no files. -/
def envTriv : ExecEnv :=
  { modules := fun _ => { specOk := true, loadDuration := 0, loadResult := .ok (), main := none }
    subproc := fun _ => { runtime := 0, returncode := 0, stdout := "", stderr := ""
                          spawnError := none }
    fileExists := fun _ => false }

/-- An environment whose modules block for 301 units during top-level load,
then expose no `main`. -/
def envSlowLoad : ExecEnv :=
  { modules := fun _ => { specOk := true, loadDuration := 301, loadResult := .ok (), main := none }
    subproc := fun _ => { runtime := 0, returncode := 0, stdout := "", stderr := ""
                          spawnError := none }
    fileExists := fun _ => true }

/-- An environment whose modules cannot even produce an import spec. -/
def envBadSpec : ExecEnv :=
  { modules := fun _ => { specOk := false, loadDuration := 0, loadResult := .ok (), main := none }
    subproc := fun _ => { runtime := 0, returncode := 0, stdout := "", stderr := ""
                          spawnError := none }
    fileExists := fun _ => true }

/-! ## Claim C2 -/

/-- Claim C2 (amended): when the in-process unit blocks during module
top-level load (exec_module) for longer than the configured timeout and the
load completes without raising, `execute_python_module` returns
`success=false` with the error `"Module execution timed out after N
seconds"` and `duration` equal to the full blocked time, which is at least
the timeout.  (A block inside `main` is not detected — see the
counterexample.) -/
theorem c2_load_timeout (env : ExecEnv) (p : String) (ti : Option Task) (tmo : Nat)
    (htmo : tmo ≠ 0)
    (hspec : (env.modules p).specOk = true)
    (hload : (env.modules p).loadResult = .ok ())
    (hdur : tmo < (env.modules p).loadDuration) :
    execute_python_module env p ti (some tmo)
      = { success := false, output := ""
          error := "Module execution timed out after " ++ toString tmo ++ " seconds"
          duration := (env.modules p).loadDuration
          task_id := ti.map (·.id) }
    ∧ tmo ≤ (execute_python_module env p ti (some tmo)).duration := by
  have hb : epmBody (env.modules p) ti tmo p
      = .error (.timeoutErr ("Module execution timed out after " ++ toString tmo ++ " seconds"),
                (env.modules p).loadDuration) := by
    unfold epmBody
    rw [hload]
    simp [hspec, timeoutFired, hdur]
  constructor
  · unfold execute_python_module
    rw [resolveTimeout_pos tmo htmo, hb]
    rfl
  · unfold execute_python_module
    rw [resolveTimeout_pos tmo htmo, hb]
    exact le_of_lt hdur

/-- Witness for C2 (amended): a module blocking 301 units at load against a
300-unit timeout. -/
theorem c2_load_timeout_witness :
    execute_python_module envSlowLoad "w.py" none (some 300)
      = { success := false, output := ""
          error := "Module execution timed out after " ++ toString (300 : Nat) ++ " seconds"
          duration := 301, task_id := none }
    ∧ (300 : Nat) ≤ (execute_python_module envSlowLoad "w.py" none (some 300)).duration :=
  c2_load_timeout envSlowLoad "w.py" none 300 (by decide) rfl rfl (by decide)

/-- A module whose top-level load is instant but whose `main(task_info)`
blocks for 301 units and then returns `None`. -/
def mMainBlocks : PyModule :=
  { specOk := true, loadDuration := 0, loadResult := .ok ()
    main := some { acceptsArg := true, duration := 301, run := .ok none } }

def siC2 : ScriptInfo :=
  { name := "m", path := "brain_scripts/m.py", typ := "unknown", enabled := some true }

def taskC2 : Task :=
  { id := "m_0", name := "m", typ := "utility", priority := 2, trigger_source := "manual"
    metadata := none, created_at := 0, status := "dispatched", script_info := some siC2 }

def envC2x : ExecEnv :=
  { modules := fun _ => mMainBlocks
    subproc := fun _ => { runtime := 0, returncode := 0, stdout := "", stderr := ""
                          spawnError := none }
    fileExists := fun _ => true }

/-- Claim C2 counterexample: a unit whose `main` blocks 301 units against
the configured 300-unit timeout is NOT reported as a timeout — `execute_task`
returns `success=true` with an empty error and duration 301 > 300, because
the code never consults the timeout event after calling `main`. -/
theorem c2_cex :
    ((execute_task envC2x (some taskC2) ⟨[]⟩).1).success = true
    ∧ ((execute_task envC2x (some taskC2) ⟨[]⟩).1).error = ""
    ∧ ((execute_task envC2x (some taskC2) ⟨[]⟩).1).duration = 301
    ∧ default_timeout < ((execute_task envC2x (some taskC2) ⟨[]⟩).1).duration := by
  decide

/-! ## Claim C3 -/

/-- Claim C3 (amended): a task whose registry entry has `enabled = false` is
a hard routing failure only when the direct-file fallback also misses (no
`<name>.py` in the scripts directory): then resolution returns nothing,
`route_and_dispatch` never emits a task of that name, the Executor is never
invoked for it, and no history entry (hence no `total_executions` increment)
is ever produced for it. -/
theorem c3_disabled_not_dispatched (renv : RouterEnv) (eenv : ExecEnv) (t : String)
    (si : ScriptInfo) (hreg : renv.registry t = some si)
    (hen : si.enabled = some false) (hfs : renv.fsScript t = false) :
    find_script_for_task renv t = none
    ∧ (∀ (n : Nat) (st : RouterState) (tk : Task),
        tk ∈ (route_and_dispatch renv n st).1 → tk.name ≠ t)
    ∧ (∀ (n : Nat) (st : RouterState) (est : ExecState) (e : HistEntry),
        e ∈ ((execute_batch eenv (route_and_dispatch renv n st).1 est).2).execution_history →
        e ∈ est.execution_history ∨ e.task.name ≠ t) := by
  have hfind : find_script_for_task renv t = none := by
    unfold find_script_for_task fallbackLookup
    rw [hreg]
    simp [hen, hfs]
  have hdisp : ∀ (n : Nat) (st : RouterState) (tk : Task),
      tk ∈ (route_and_dispatch renv n st).1 → tk.name ≠ t := by
    intro n st tk htk
    obtain ⟨q⟩ := st
    have h := dispatchLoop_full renv (min n q.length) q (min_le_right _ _)
    unfold route_and_dispatch at htk
    rw [h] at htk
    rcases List.mem_filterMap.1 htk with ⟨a, _, ha⟩
    unfold attachScript at ha
    cases hfa : find_script_for_task renv a.name with
    | none =>
      rw [hfa] at ha
      cases ha
    | some si2 =>
      rw [hfa] at ha
      simp only [Option.map_some', Option.some.injEq] at ha
      intro hname
      rw [← ha] at hname
      have ha' : a.name = t := hname
      rw [ha', hfind] at hfa
      cases hfa
  refine ⟨hfind, hdisp, ?_⟩
  intro n st est e he
  rcases execute_batch_hist_mem eenv _ est e he with h | ⟨tk, htk, het⟩
  · exact Or.inl h
  · right
    rw [het]
    exact hdisp n st tk htk

def siDisabled : ScriptInfo := { name := "t", path := "reg/t.py", typ := "x", enabled := some false }

def renvC3w : RouterEnv :=
  { registry := fun n => if n == "t" then some siDisabled else none
    fsScript := fun _ => false, brainScriptsDir := "brain_scripts" }

/-- Witness for C3 (amended): the disabled entry with no fallback file
really resolves to nothing. -/
theorem c3_disabled_not_dispatched_witness :
    find_script_for_task renvC3w "t" = none :=
  (c3_disabled_not_dispatched renvC3w envTriv "t" siDisabled rfl rfl rfl).1

def renvC3x : RouterEnv :=
  { registry := fun n => if n == "t" then some siDisabled else none
    fsScript := fun n => n == "t", brainScriptsDir := "brain_scripts" }

def taskT : Task :=
  { id := "t_0", name := "t", typ := "utility", priority := 2, trigger_source := "manual"
    metadata := none, created_at := 0, status := "queued" }

def eenvC3x : ExecEnv :=
  { modules := fun _ => { specOk := true, loadDuration := 0, loadResult := .ok (), main := none }
    subproc := fun _ => { runtime := 0, returncode := 0, stdout := "", stderr := ""
                          spawnError := none }
    fileExists := fun _ => true }

/-- Claim C3 counterexample: the registry entry for "t" is disabled, yet
because `brain_scripts/t.py` exists, `find_script_for_task` resolves it via
the fallback, the task is dispatched, the Executor runs it, and
`total_executions` increments to 1 — not a hard routing failure. -/
theorem c3_cex :
    find_script_for_task renvC3x "t"
      = some { name := "t", path := "brain_scripts/t.py", typ := "unknown"
               enabled := some true }
    ∧ (route_and_dispatch renvC3x 1 ⟨[taskT]⟩).1.length = 1
    ∧ (get_execution_stats
        ((execute_batch eenvC3x (route_and_dispatch renvC3x 1 ⟨[taskT]⟩).1
          ⟨[]⟩).2)).total_executions = 1 := by
  decide

/-! ## Claim C5 -/

/-- Claim C5: faults raised by the unit never escape: `execute_batch`
returns exactly one `ExecutionResult` per submitted task whatever the units
do, and any exception raised inside the `execute_python_module` body is
caught by its handlers and surfaced only as a failed `ExecutionResult`
carrying the classified message. -/
theorem c5_fault_containment (env : ExecEnv) (tasks : List Task) (st : ExecState) :
    (execute_batch env tasks st).1.length = tasks.length
    ∧ (∀ (p : String) (ti : Option Task) (tmo : Option Nat) (ex : PyExn) (d : Nat),
        epmBody (env.modules p) ti (resolveTimeout tmo) p = .error (ex, d) →
        execute_python_module env p ti tmo = pyFailResult ex d (ti.map (·.id))
          ∧ (execute_python_module env p ti tmo).success = false) := by
  refine ⟨execute_batch_length env tasks st, ?_⟩
  intro p ti tmo ex d h
  have heq : execute_python_module env p ti tmo = pyFailResult ex d (ti.map (·.id)) := by
    unfold execute_python_module
    rw [h]
  refine ⟨heq, ?_⟩
  rw [heq]
  exact pyFailResult_success ex d _

/-- Witness for C5: a module whose import spec cannot be built raises
`ImportError` inside the body; the call still returns a plain failed
result. -/
theorem c5_fault_containment_witness :
    execute_python_module envBadSpec "u.py" none none
      = pyFailResult (.otherErr "ImportError" ("Could not load spec for " ++ "u.py")) 0 none
    ∧ (execute_python_module envBadSpec "u.py" none none).success = false :=
  (c5_fault_containment envBadSpec [] ⟨[]⟩).2 "u.py" none none
    (.otherErr "ImportError" ("Could not load spec for " ++ "u.py")) 0 rfl

/-! ## Claim C6 -/

/-- Claim C6: starting from any state within the 100-entry cap, the history
after `execute_task` never exceeds 100 entries; and when the call appends at
exactly 100 entries the oldest entry is evicted first — the history becomes
its tail plus the new entry (calls that return before the append leave it
unchanged). -/
theorem c6_history_cap (env : ExecEnv) (ti : Option Task) (st : ExecState)
    (hcap : st.execution_history.length ≤ 100) :
    ((execute_task env ti st).2).execution_history.length ≤ 100
    ∧ (st.execution_history.length = 100 →
        ((execute_task env ti st).2).execution_history = st.execution_history
        ∨ ∃ e, ((execute_task env ti st).2).execution_history
                 = st.execution_history.tail ++ [e]) := by
  cases ti with
  | none => exact ⟨hcap, fun _ => Or.inl rfl⟩
  | some task =>
    cases hsi : task.script_info with
    | none =>
      rw [execute_task_some_none env task st hsi]
      exact ⟨hcap, fun _ => Or.inl rfl⟩
    | some si =>
      cases hex : env.fileExists si.path with
      | false =>
        rw [execute_task_missing env task st si hsi hex]
        exact ⟨hcap, fun _ => Or.inl rfl⟩
      | true =>
        rw [execute_task_run env task st si hsi hex]
        have h := appendHistory_spec st task (runScript env task si) hcap
        exact ⟨h.1, fun h100 =>
          Or.inr ⟨HistEntry.mk task (runScript env task si), h.2 h100⟩⟩

def entry0 : HistEntry :=
  ⟨taskT, { success := true, output := "", error := "", duration := 0, task_id := some "t_0" }⟩

def st100 : ExecState := ⟨List.replicate 100 entry0⟩

/-- Witness for C6: at a history of exactly 100 entries, a further
`execute_task` call leaves the history unchanged or evicts the oldest
entry. -/
theorem c6_history_cap_witness :
    ((execute_task envTriv none st100).2).execution_history = st100.execution_history
    ∨ ∃ e, ((execute_task envTriv none st100).2).execution_history
             = st100.execution_history.tail ++ [e] :=
  (c6_history_cap envTriv none st100 (by simp [st100])).2 (by simp [st100])

/-! ## Claim C7 -/

/-- Claim C7: `execute_batch` runs its tasks strictly sequentially, and
returns exactly one result per submitted task in submission order — the
result list has the same length as the task list and its i-th element
carries the i-th task's id — regardless of the success or failure of each
task (no failure aborts the batch). -/
theorem c7_batch_one_result_per_task (env : ExecEnv) (tasks : List Task) (st : ExecState) :
    (execute_batch env tasks st).1.length = tasks.length
    ∧ (execute_batch env tasks st).1.map (·.task_id)
        = tasks.map (fun tk => some tk.id) :=
  ⟨execute_batch_length env tasks st, execute_batch_ids env tasks st⟩

/-! ## Claim C8 -/

/-- Claim C8 (amended): a task resolved to a nonexistent path yields
`success=false` with the error `"Script file not found: <path>"`, but the
run is NOT recorded: `execute_task` returns before the history append, so
the state and `get_execution_stats` (totalExecutions, failureCount) are
unchanged. -/
theorem c8_missing_file_not_recorded (env : ExecEnv) (task : Task) (st : ExecState)
    (si : ScriptInfo) (hsi : task.script_info = some si)
    (hex : env.fileExists si.path = false) :
    (execute_task env (some task) st).1
      = { success := false, output := "", error := "Script file not found: " ++ si.path
          duration := 0, task_id := some task.id }
    ∧ (execute_task env (some task) st).2 = st
    ∧ get_execution_stats (execute_task env (some task) st).2 = get_execution_stats st := by
  rw [execute_task_missing env task st si hsi hex]
  exact ⟨rfl, rfl, rfl⟩

def siSh : ScriptInfo :=
  { name := "x", path := "brain_scripts/x.sh", typ := "unknown", enabled := some true }

def taskC8 : Task :=
  { id := "x_0", name := "x", typ := "utility", priority := 2, trigger_source := "manual"
    metadata := none, created_at := 0, status := "dispatched", script_info := some siSh }

/-- Witness for C8 (amended): the concrete missing-file task. -/
theorem c8_missing_file_witness :
    (execute_task envTriv (some taskC8) ⟨[]⟩).1
      = { success := false, output := ""
          error := "Script file not found: " ++ "brain_scripts/x.sh"
          duration := 0, task_id := some "x_0" }
    ∧ (execute_task envTriv (some taskC8) ⟨[]⟩).2 = (⟨[]⟩ : ExecState)
    ∧ get_execution_stats (execute_task envTriv (some taskC8) ⟨[]⟩).2
        = get_execution_stats ⟨[]⟩ :=
  c8_missing_file_not_recorded envTriv taskC8 ⟨[]⟩ siSh rfl rfl

/-- Claim C8 counterexample: executing a task whose path does not exist
returns the expected failure, but `total_executions` stays 0 instead of
incrementing to 1 as the claim requires — the failed run never reaches the
history. -/
theorem c8_cex :
    ((execute_task envTriv (some taskC8) ⟨[]⟩).1).success = false
    ∧ ((execute_task envTriv (some taskC8) ⟨[]⟩).1).error
        = "Script file not found: brain_scripts/x.sh"
    ∧ (get_execution_stats ((execute_task envTriv (some taskC8) ⟨[]⟩).2)).total_executions = 0
    ∧ (get_execution_stats ((execute_task envTriv (some taskC8) ⟨[]⟩).2)).total_executions
        ≠ (get_execution_stats ⟨[]⟩).total_executions + 1 := by
  decide

/-! ## Claim C10 -/

/-- Claim C10 (amended): for a module whose import spec builds, whose
top-level load completes without raising and within the timeout:
without a `main` attribute the result is `success=true` with output
`"Module loaded successfully (no main function found)"`; and when `main`
exists but rejects the task-context argument (its signature takes no
argument, so `main(task_info)` raises `TypeError`), it is retried with no
arguments and the result is exactly that of the no-argument run of its
body. -/
theorem c10_no_main_and_retry (env : ExecEnv) (p : String) (ti : Option Task) (tmo : Nat)
    (htmo : tmo ≠ 0)
    (hspec : (env.modules p).specOk = true)
    (hload : (env.modules p).loadResult = .ok ())
    (hdur : ¬ tmo < (env.modules p).loadDuration) :
    ((env.modules p).main = none →
      execute_python_module env p ti (some tmo)
        = { success := true
            output := "Module loaded successfully (no main function found)"
            error := "", duration := (env.modules p).loadDuration
            task_id := ti.map (·.id) })
    ∧ (∀ (mf : MainFn) (task : Task),
        (env.modules p).main = some mf → ti = some task → mf.acceptsArg = false →
        execute_python_module env p ti (some tmo)
          = match mf.run with
            | .ok v =>
              { success := true, output := renderMainResult v, error := ""
                duration := (env.modules p).loadDuration + mf.duration
                task_id := some task.id }
            | .error ex =>
              pyFailResult ex ((env.modules p).loadDuration + mf.duration)
                (some task.id)) := by
  constructor
  · intro hmain
    unfold execute_python_module
    rw [resolveTimeout_pos tmo htmo]
    unfold epmBody
    rw [hload]
    simp [hspec, hmain, timeoutFired, hdur]
  · intro mf task hmain hti hacc
    subst hti
    unfold execute_python_module
    rw [resolveTimeout_pos tmo htmo]
    unfold epmBody
    rw [hload]
    have hcall : mainCall mf (some task) (env.modules p).loadDuration
        = match mf.run with
          | .ok v => .ok (v, (env.modules p).loadDuration + mf.duration)
          | .error ex => .error (ex, (env.modules p).loadDuration + mf.duration) := by
      unfold mainCall callMainWithRetry callMainWithArg callMainNoArg
      rw [hacc]
      simp
    cases hrun : mf.run with
    | ok v =>
      rw [hrun] at hcall
      simp [hspec, hmain, timeoutFired, hdur, hcall]
    | error ex =>
      rw [hrun] at hcall
      simp [hspec, hmain, timeoutFired, hdur, hcall]

/-- Witness for C10 (amended): an instantly-loading module with no `main`
yields the no-main success result. -/
theorem c10_no_main_witness :
    execute_python_module envTriv "n.py" none (some 300)
      = { success := true, output := "Module loaded successfully (no main function found)"
          error := "", duration := 0, task_id := none } :=
  (c10_no_main_and_retry envTriv "n.py" none 300 (by decide) rfl rfl (by decide)).1 rfl

/-- Claim C10 counterexample: a module that loads successfully (no fault)
and defines no `main`, but whose load blocks 301 units against the default
timeout of 300, yields a failed timeout result — not the claimed unconditional
`success=true` no-main output. -/
theorem c10_cex :
    ((execute_python_module envSlowLoad "s.py" none none).success = false)
    ∧ (execute_python_module envSlowLoad "s.py" none none).output
        ≠ "Module loaded successfully (no main function found)" := by
  decide

end RussoEngine
